import Mathlib

/-!
Formal model of the Vizard wallet SDK core: key derivation, the
session/connection state machine of `VizardWallet`, and the SDK facade
(`VizardSdk`).  External library calls (MetaMask, the Aztec node client,
bb.js, keccak256, `Fr.fromBuffer`) are modelled as an explicit environment
of oracles; byte strings are `List Nat`, handles are `Nat`.
-/

namespace Vizard

/-! ### Key derivation module (`keys/derivation.ts`) -/

/-- `const DERIVATION_VERSION = 'vizard-v1'`. -/
def DERIVATION_VERSION : String := "vizard-v1"

/-- Model of JavaScript `Array.prototype.join('\n')` on a list of lines. -/
def joinLines : List String → String
  | [] => ""
  | [line] => line
  | line :: rest => line ++ "\n" ++ joinLines rest

/-- `createDerivationMessage` from `keys/derivation.ts`: the plaintext message
shown to the user in MetaMask.  The address is embedded verbatim. -/
def createDerivationMessage (evmAddress : String) : String :=
  joinLines [
    "Vizard Aztec Wallet",
    "",
    "Sign this message to derive your Aztec private keys.",
    "This signature will NOT be sent to any server.",
    "",
    "Version: " ++ DERIVATION_VERSION,
    "Address: " ++ evmAddress]

/-- Modelled from the spec: the message bytes the claim asserts are submitted
to the signer, with version tag `v1` and the address lower-cased. -/
def claimedDerivationMessage (evmAddress : String) : String :=
  "Vizard Aztec Wallet\n\nSign this message to derive your Aztec private keys.\nThis signature will NOT be sent to any server.\n\nVersion: v1\nAddress: "
    ++ evmAddress.map Char.toLower

/-- viem `toBytes` applied to a plain (non-hex) string: its UTF-8 bytes.
The three domain tags are ASCII, so code points coincide with bytes. -/
def toBytesAscii (s : String) : List Nat := s.data.map Char.toNat

/-- `deriveSecretKey`: `Fr.fromBuffer(keccak256(sigBytes ++ "vizard:secret"))`.
`keccak256` and `Fr.fromBuffer` are external library functions, passed in. -/
def deriveSecretKey (keccak256 : List Nat → List Nat) (frFromBuffer : List Nat → Nat)
    (signatureBytes : List Nat) : Nat :=
  frFromBuffer (keccak256 (signatureBytes ++ toBytesAscii "vizard:secret"))

/-- `deriveSalt`: `Fr.fromBuffer(keccak256(sigBytes ++ "vizard:salt"))`. -/
def deriveSalt (keccak256 : List Nat → List Nat) (frFromBuffer : List Nat → Nat)
    (signatureBytes : List Nat) : Nat :=
  frFromBuffer (keccak256 (signatureBytes ++ toBytesAscii "vizard:salt"))

/-- `deriveSigningKey`: raw 32-byte key `keccak256(sigBytes ++ "vizard:signing")`. -/
def deriveSigningKey (keccak256 : List Nat → List Nat)
    (signatureBytes : List Nat) : List Nat :=
  keccak256 (signatureBytes ++ toBytesAscii "vizard:signing")

/-- The `DerivedKeys` record returned by `deriveAztecKeys`. -/
structure DerivedKeys where
  secretKey : Nat
  salt : Nat
  signingPrivateKey : List Nat
  evmAddress : String
  signature : List Nat
deriving DecidableEq

/-- The pure tail of `deriveAztecKeys`: assemble the `DerivedKeys` record from
the signature bytes returned by MetaMask. -/
def deriveKeysFromSignature (keccak256 : List Nat → List Nat)
    (frFromBuffer : List Nat → Nat) (evmAddress : String)
    (signatureBytes : List Nat) : DerivedKeys :=
  { secretKey := deriveSecretKey keccak256 frFromBuffer signatureBytes
    salt := deriveSalt keccak256 frFromBuffer signatureBytes
    signingPrivateKey := deriveSigningKey keccak256 signatureBytes
    evmAddress := evmAddress
    signature := signatureBytes }

example : createDerivationMessage "0xab" =
    "Vizard Aztec Wallet\n\nSign this message to derive your Aztec private keys.\nThis signature will NOT be sent to any server.\n\nVersion: vizard-v1\nAddress: 0xab" := by
  decide

example : createDerivationMessage "0xABCunique" ≠ claimedDerivationMessage "0xABCunique" := by
  decide

/-! ### Session / connection state machine (`wallet/VizardWallet.ts`) -/

/-- bb.js backend kinds selectable through `VizardWalletConfig.bbBackend`. -/
inductive BBBackendType
  | wasmWorker
  | wasm
deriving DecidableEq

/-- `VizardWalletConfig`.  The fee-payment-method provider is a function in
the source; here only its presence is recorded, its behaviour lives in `Env`. -/
structure VizardWalletConfig where
  pxeUrl : String
  hasFeePaymentMethodProvider : Bool
  autoSync : Option Bool
  bbWasmPath : Option String
  bbThreads : Option Nat
  bbBackend : Option BBBackendType
  bbLog : Bool
deriving DecidableEq

/-- The `status` field of `ConnectionState`. -/
inductive ConnectionStatus
  | disconnected
  | connecting
  | deriving_keys
  | initializing_pxe
  | registering
  | syncing
  | connected
deriving DecidableEq

/-- `ConnectionState`. -/
structure ConnectionState where
  status : ConnectionStatus
  message : String
deriving DecidableEq

/-- `getContractMetadata` result, as read by `setupAccount`. -/
structure ContractMetadata where
  isContractInitialized : Bool
  isContractPublished : Bool
  hasInstance : Bool
deriving DecidableEq

/-- The mutable fields of a `VizardWallet` instance.  External handles
(node, TestWallet, fee payment method) are abstract numbers. -/
structure WalletState where
  node : Option Nat
  accountWallet : Option Nat
  testWalletInstance : Option Nat
  derivedKeys : Option DerivedKeys
  evmAddress : Option String
  aztecAddress : Option String
  feePaymentMethod : Option Nat
  bbInitialized : Bool
  connectionState : ConnectionState
deriving DecidableEq

/-- The initial field values of a freshly constructed `VizardWallet`. -/
def initialWalletState : WalletState :=
  { node := none
    accountWallet := none
    testWalletInstance := none
    derivedKeys := none
    evmAddress := none
    aztecAddress := none
    feePaymentMethod := none
    bbInitialized := false
    connectionState := ⟨.disconnected, "Not connected"⟩ }

/-- Observable external calls made during `connect`/`setupAccount`, in order.
For the two best-effort calls the outcome is recorded, since the code
swallows their failures. -/
inductive Effect
  | requestAccounts
  | signatureRequest (message : String)
  | pxeConnect (url : String)
  | bbInitAttempt (backend : Option BBBackendType) (threads : Option Nat)
  | fetchL1Contracts
  | createTestWallet
  | fpcGetContract
  | feeProviderCall
  | createECDSAAccount
  | getContractMetadata (address : String)
  | deploySubmit (sender : String) (fee : Option Nat)
  | deployWait (timeoutMs : Nat)
  | registerSender (address : String) (ok : Bool)
  | createSchnorrAccount (ok : Bool)
deriving DecidableEq

/-- Oracle for every external boundary the wallet calls into.  `Except`
results model promise rejection with the thrown message. -/
structure Env where
  ethereumPresent : Bool
  accounts : List String
  signResult : String → String → Except String (List Nat)
  keccak256 : List Nat → List Nat
  frFromBuffer : List Nat → Nat
  nodeReady : String → Except String Nat
  bbAttempt1Ok : Bool
  bbAttempt1Err : String
  bbAttempt2Ok : Bool
  bbAttempt2Err : String
  l1ContractsResult : Except String Unit
  testWalletCreate : Except String Nat
  fpcGetContract : Except String Bool
  feeProviderResult : Except String (Option Nat)
  accountAddressOf : DerivedKeys → String
  contractMetadata : String → Except String ContractMetadata
  deploySendResult : Except String Unit
  deployWaitResult : Except String Unit
  registerSenderOk : Bool
  schnorrOk : Bool
  getContractAt : String → Except String (Option Nat)

/-- `AztecAddress.ZERO.toString()`. -/
def AztecAddressZero : String :=
  "0x0000000000000000000000000000000000000000000000000000000000000000"

/-- `deriveAztecKeys` from `keys/derivation.ts`: check the provider, build the
derivation message, request a `personal_sign` over it, derive the keys. -/
def deriveAztecKeysM (env : Env) (evmAddress : String) :
    Except String DerivedKeys × List Effect :=
  if env.ethereumPresent then
    let message := createDerivationMessage evmAddress
    match env.signResult message evmAddress with
    | .error e => (.error e, [.signatureRequest message])
    | .ok sig =>
        (.ok (deriveKeysFromSignature env.keccak256 env.frFromBuffer evmAddress sig),
         [.signatureRequest message])
  else
    (.error "MetaMask not detected. Please install MetaMask.", [])

/-- `connectToPXE` from `pxe/BrowserPXE.ts`: wait for the node, wrapping any
failure in a connection error message. -/
def connectToPXE (env : Env) (pxeUrl : String) : Except String Nat × List Effect :=
  match env.nodeReady pxeUrl with
  | .error err =>
      (.error ("Failed to connect to Aztec node at " ++ pxeUrl ++ ": " ++ err),
       [.pxeConnect pxeUrl])
  | .ok node => (.ok node, [.pxeConnect pxeUrl])

/-- `initBarretenberg`: early return when already initialized; otherwise one
attempt with the configured options, and a second attempt with the plain Wasm
backend only when the configured backend was `wasm-worker`.  Returns the
result, the new `bbInitialized` flag, and the attempts made. -/
def initBarretenberg (config : VizardWalletConfig) (env : Env)
    (bbInitialized : Bool) : Except String Unit × Bool × List Effect :=
  if bbInitialized then
    (.ok (), true, [])
  else
    let attempt1 := Effect.bbInitAttempt config.bbBackend config.bbThreads
    if env.bbAttempt1Ok then
      (.ok (), true, [attempt1])
    else if config.bbBackend = some .wasmWorker then
      let attempt2 := Effect.bbInitAttempt (some .wasm) (some (config.bbThreads.getD 1))
      if env.bbAttempt2Ok then
        (.ok (), true, [attempt1, attempt2])
      else
        (.error env.bbAttempt2Err, false, [attempt1, attempt2])
    else
      (.error env.bbAttempt1Err, false, [attempt1])

/-- `resolveFeePaymentMethod`: return the cached method if set; otherwise call
the provider when configured, caching `method ?? null`.  Returns the resolved
method, the new cached field, and the effects. -/
def resolveFeePaymentMethod (config : VizardWalletConfig) (env : Env)
    (current : Option Nat) :
    Except String (Option Nat) × Option Nat × List Effect :=
  match current with
  | some m => (.ok (some m), some m, [])
  | none =>
      if config.hasFeePaymentMethodProvider then
        match env.feeProviderResult with
        | .error e => (.error e, none, [.feeProviderCall])
        | .ok m => (.ok m, m, [.feeProviderCall])
      else
        (.ok none, none, [])

/-- The tail of `setupAccount` shared by the deploy and no-deploy paths:
store the TestWallet, then best-effort sender registration and Schnorr
pre-registration, both with failures swallowed. -/
def setupTail (env : Env) (testWallet : Nat) (address : String)
    (s : WalletState) (fx : List Effect) :
    Except String (Nat × String) × WalletState × List Effect :=
  (.ok (testWallet, address),
   { s with testWalletInstance := some testWallet },
   fx ++ [.registerSender address env.registerSenderOk,
          .createSchnorrAccount env.schnorrOk])

/-- `setupAccount`: init bb.js, fetch L1 contracts, create the TestWallet,
check the FPC and resolve the fee payment method when a provider is
configured, create the ECDSA account, then deploy-or-reuse guarded by
`isContractInitialized`, and finish with the best-effort tail. -/
def setupAccount (config : VizardWalletConfig) (env : Env) (s : WalletState) :
    Except String (Nat × String) × WalletState × List Effect :=
  match s.node, s.derivedKeys with
  | none, _ => (.error "Not initialized", s, [])
  | some _, none => (.error "Not initialized", s, [])
  | some _, some keys =>
    let (bbRes, bbFlag, bbFx) := initBarretenberg config env s.bbInitialized
    let s1 := { s with bbInitialized := bbFlag }
    match bbRes with
    | .error e => (.error e, s1, bbFx)
    | .ok _ =>
      let fx1 := bbFx ++ [Effect.fetchL1Contracts]
      match env.l1ContractsResult with
      | .error e => (.error e, s1, fx1)
      | .ok _ =>
        let fx2 := fx1 ++ [Effect.createTestWallet]
        match env.testWalletCreate with
        | .error e => (.error e, s1, fx2)
        | .ok testWallet =>
          let fpcFx : List Effect :=
            if config.hasFeePaymentMethodProvider then [.fpcGetContract] else []
          let (feeRes, newFee, feeFx) :=
            if config.hasFeePaymentMethodProvider then
              resolveFeePaymentMethod config env s1.feePaymentMethod
            else
              (.ok none, s1.feePaymentMethod, [])
          let s2 := { s1 with feePaymentMethod := newFee }
          let fx3 := fx2 ++ fpcFx ++ feeFx
          match feeRes with
          | .error e => (.error e, s2, fx3)
          | .ok paymentMethod =>
            let address := env.accountAddressOf keys
            let fx4 := fx3 ++ [Effect.createECDSAAccount,
                               Effect.getContractMetadata address]
            match env.contractMetadata address with
            | .error e => (.error e, s2, fx4)
            | .ok metadata =>
              if metadata.isContractInitialized then
                setupTail env testWallet address s2 fx4
              else
                let fx5 := fx4 ++ [Effect.deploySubmit AztecAddressZero paymentMethod]
                match env.deploySendResult with
                | .error e => (.error e, s2, fx5)
                | .ok _ =>
                  let fx6 := fx5 ++ [Effect.deployWait 300000]
                  match env.deployWaitResult with
                  | .error e => (.error e, s2, fx6)
                  | .ok _ => setupTail env testWallet address s2 fx6

/-- The `connected` status message built from the Aztec address. -/
def connectedMessage (aztecAddress : String) : String :=
  "Connected! Aztec address: " ++ aztecAddress.take 10 ++ "..."

/-- The body of `connect` inside its try block.  On failure the state
reached so far is returned together with the thrown message. -/
def connectBody (config : VizardWalletConfig) (env : Env) (s : WalletState) :
    Except String Nat × WalletState × List Effect :=
  let s := { s with connectionState := ⟨.connecting, "Connecting to MetaMask..."⟩ }
  if env.ethereumPresent then
    match env.accounts with
    | [] => (.error "No accounts available. Please unlock MetaMask.", s,
             [.requestAccounts])
    | addr :: _ =>
      let s := { s with evmAddress := some addr,
                        connectionState := ⟨.deriving_keys, "Sign to derive your Aztec keys..."⟩ }
      match deriveAztecKeysM env addr with
      | (.error e, dFx) => (.error e, s, Effect.requestAccounts :: dFx)
      | (.ok keys, dFx) =>
        let s := { s with derivedKeys := some keys,
                          connectionState := ⟨.initializing_pxe, "Connecting to Aztec node..."⟩ }
        match connectToPXE env config.pxeUrl with
        | (.error e, pFx) => (.error e, s, Effect.requestAccounts :: dFx ++ pFx)
        | (.ok node, pFx) =>
          let s := { s with node := some node,
                            connectionState := ⟨.registering, "Registering Aztec account..."⟩ }
          let fx1 := Effect.requestAccounts :: dFx ++ pFx
          match setupAccount config env s with
          | (.error e, s1, sFx) => (.error e, s1, fx1 ++ sFx)
          | (.ok (w, address), s1, sFx) =>
            let s2 := { s1 with accountWallet := some w, aztecAddress := some address }
            let s3 :=
              if config.autoSync.getD true then
                { s2 with connectionState := ⟨.syncing, "Syncing private state..."⟩ }
              else s2
            (.ok w,
             { s3 with connectionState := ⟨.connected, connectedMessage address⟩ },
             fx1 ++ sFx)
  else
    (.error "MetaMask not detected. Please install MetaMask.", s, [])

/-- `connect`: return the cached account wallet if present, otherwise run the
body; any failure sets a terminal `disconnected` state carrying the error
message and the error is re-thrown. -/
def connect (config : VizardWalletConfig) (env : Env) (s : WalletState) :
    Except String Nat × WalletState × List Effect :=
  match s.accountWallet with
  | some w => (.ok w, s, [])
  | none =>
    match connectBody config env s with
    | (.ok w, s1, fx) => (.ok w, s1, fx)
    | (.error e, s1, fx) =>
        (.error e, { s1 with connectionState := ⟨.disconnected, e⟩ }, fx)

/-- `disconnect`: null out the session fields and publish `disconnected`.
`feePaymentMethod` and `bbInitialized` are not touched. -/
def disconnect (s : WalletState) : WalletState :=
  { s with node := none
           accountWallet := none
           testWalletInstance := none
           derivedKeys := none
           evmAddress := none
           aztecAddress := none
           connectionState := ⟨.disconnected, "Disconnected"⟩ }

/-- `getFeePaymentMethod` accessor. -/
def getFeePaymentMethod (s : WalletState) : Option Nat := s.feePaymentMethod

/-! ### SDK facade (`sdk/VizardSdk.ts`) -/

/-- Observable external calls made by `VizardSdk.contractAt`. -/
inductive SdkEffect
  | nodeGetContract (address : String)
  | walletRegisterContract (address : String)
  | syncPrivateState (addresses : List String)
deriving DecidableEq

/-- The facade fields `contractAt` touches: the wrapped wallet state and the
contract registration cache (a set of lower-cased address keys). -/
structure VizardSdkState where
  walletState : WalletState
  registeredContracts : List String
deriving DecidableEq

/-- `AztecAddress.fromString(a).toString().toLowerCase()`: the cache key. The
canonical form is modelled as the lower-cased input string. -/
def addressKeyOf (address : String) : String := address.map Char.toLower

/-- `VizardSdk.contractAt`: require a connected wallet and node; on a cache
miss with `register` set, fetch the instance (failing with a contract-not-found
error when there is none), register it, cache the key, and sync; otherwise do
no network work.  Returns the handle as the bound address key. -/
def contractAt (env : Env) (s : VizardSdkState) (address : String)
    (register : Bool) :
    Except String String × VizardSdkState × List SdkEffect :=
  match s.walletState.accountWallet, s.walletState.node with
  | some _, some _ =>
    let addressKey := addressKeyOf address
    if register && !(s.registeredContracts.contains addressKey) then
      match env.getContractAt addressKey with
      | .error e => (.error e, s, [.nodeGetContract addressKey])
      | .ok none =>
          (.error ("Contract not found at " ++ addressKey ++
                   ". Make sure it is deployed on this network."),
           s, [.nodeGetContract addressKey])
      | .ok (some _) =>
          (.ok addressKey,
           { s with registeredContracts := s.registeredContracts ++ [addressKey] },
           [.nodeGetContract addressKey, .walletRegisterContract addressKey,
            .syncPrivateState [addressKey]])
    else
      (.ok addressKey, s, [])
  | _, _ => (.error "Wallet not connected", s, [])

/-! ### Transaction queue (`enqueueTx` in `sdk/VizardSdk.ts`)

A queued operation is characterised by how long it runs and whether its
promise fulfils.  A promise is modelled by its settlement time and outcome;
`txQueue` starts as `Promise.resolve()`. -/

/-- A transaction-submitting operation handed to `enqueueTx`. -/
structure TxOp where
  duration : Nat
  succeeds : Bool
deriving DecidableEq

/-- A settled-promise abstraction: when it settles and whether it fulfils. -/
structure PromiseState where
  settleTime : Nat
  fulfilled : Bool
deriving DecidableEq

/-- The initial `txQueue = Promise.resolve()`. -/
def txQueueInit : PromiseState := ⟨0, true⟩

/-- `enqueueTx`: `next = txQueue.then(run, run)` starts the operation when the
tail settles, fulfilled or rejected; the new tail
`next.then(() => undefined, () => undefined)` always fulfils.  Returns the
operation promise and the new tail. -/
def enqueueTx (txQueue : PromiseState) (op : TxOp) : PromiseState × PromiseState :=
  let next : PromiseState := ⟨txQueue.settleTime + op.duration, op.succeeds⟩
  (next, ⟨next.settleTime, true⟩)

/-- The observable schedule of one queued operation. -/
structure ScheduledOp where
  startTime : Nat
  settleTime : Nat
  succeeds : Bool
deriving DecidableEq

/-- Run a list of operations through `enqueueTx`, recording when each starts
(the settlement of the tail it was chained on) and settles. -/
def scheduleOps (txQueue : PromiseState) : List TxOp → List ScheduledOp
  | [] => []
  | op :: rest =>
      let p := enqueueTx txQueue op
      ⟨txQueue.settleTime, p.1.settleTime, p.1.fulfilled⟩ :: scheduleOps p.2 rest

/-! ### Concrete environment used by the witnesses -/

/-- A concrete, fully successful environment. -/
def testEnv : Env :=
  { ethereumPresent := true
    accounts := ["0xabc"]
    signResult := fun _ _ => .ok [1, 2, 3]
    keccak256 := fun bytes => bytes
    frFromBuffer := fun bytes => bytes.foldl (fun acc b => acc * 256 + b) 0
    nodeReady := fun _ => .ok 7
    bbAttempt1Ok := true
    bbAttempt1Err := "bb worker failed"
    bbAttempt2Ok := true
    bbAttempt2Err := "bb wasm failed"
    l1ContractsResult := .ok ()
    testWalletCreate := .ok 5
    fpcGetContract := .ok true
    feeProviderResult := .ok (some 9)
    accountAddressOf := fun _ => "0xaztecaddr"
    contractMetadata := fun _ => .ok ⟨true, true, true⟩
    deploySendResult := .ok ()
    deployWaitResult := .ok ()
    registerSenderOk := true
    schnorrOk := true
    getContractAt := fun _ => .ok (some 3) }

/-- A concrete configuration. -/
def testConfig : VizardWalletConfig :=
  { pxeUrl := "http://localhost:8080"
    hasFeePaymentMethodProvider := true
    autoSync := none
    bbWasmPath := none
    bbThreads := none
    bbBackend := none
    bbLog := false }

/-- The configuration with the worker backend selected. -/
def workerConfig : VizardWalletConfig :=
  { testConfig with bbBackend := some .wasmWorker }

/-- Environment whose first bb.js attempt fails. -/
def bbFailEnv : Env := { testEnv with bbAttempt1Ok := false }

/-- Environment with no unlocked accounts. -/
def noAccountsEnv : Env := { testEnv with accounts := [] }

/-- Environment whose account is not yet initialized on-network. -/
def freshAccountEnv : Env :=
  { testEnv with contractMetadata := fun _ => .ok ⟨false, false, false⟩ }

/-- Environment where the deployment wait times out. -/
def deployTimeoutEnv : Env :=
  { freshAccountEnv with deployWaitResult := .error "Tx wait timeout" }

/-- Environment where sender registration fails. -/
def senderFailEnv : Env := { testEnv with registerSenderOk := false }

/-- Environment with no contract instance at any address. -/
def noContractEnv : Env := { testEnv with getContractAt := fun _ => .ok none }

/-- A wallet state with a cached account handle. -/
def cachedWalletState : WalletState :=
  { initialWalletState with accountWallet := some 5 }

/-- A wallet state with the bb.js flag set and a resolved fee method, as left
behind by a successful session. -/
def sessionWalletState : WalletState :=
  { initialWalletState with
      accountWallet := some 5
      feePaymentMethod := some 9
      bbInitialized := true
      connectionState := ⟨.connected, "Connected!"⟩ }

/-- A wallet state ready for `connect` but with bb.js already initialized and
a fee method resolved in an earlier session. -/
def warmWalletState : WalletState :=
  { initialWalletState with feePaymentMethod := some 9, bbInitialized := true }

/-- A connected SDK state with an empty registration cache. -/
def connectedSdkState : VizardSdkState :=
  { walletState := { initialWalletState with accountWallet := some 5, node := some 7 }
    registeredContracts := [] }

/-- `true` exactly on `deploySubmit` effects. -/
def Effect.isDeploySubmit : Effect → Bool
  | .deploySubmit _ _ => true
  | _ => false

/-- Number of deployment submissions in a trace. -/
def countDeploys (fx : List Effect) : Nat :=
  (fx.filter Effect.isDeploySubmit).length

/-- Total running time of a list of queued operations. -/
def sumDurations (ops : List TxOp) : Nat := (ops.map TxOp.duration).sum

/-! ## Theorems -/

/-! ### Helper lemmas -/

/-- The derivation message is the fixed template with the address appended
verbatim. -/
theorem createDerivationMessage_eq (evmAddress : String) :
    createDerivationMessage evmAddress =
      "Vizard Aztec Wallet\n\nSign this message to derive your Aztec private keys.\nThis signature will NOT be sent to any server.\n\nVersion: vizard-v1\nAddress: "
        ++ evmAddress := by
  simp only [createDerivationMessage, DERIVATION_VERSION, joinLines]
  simp only [← String.append_assoc]
  rfl

/-- `initBarretenberg` is a no-op once the flag is set. -/
theorem initBarretenberg_of_initialized (config : VizardWalletConfig) (env : Env) :
    initBarretenberg config env true = (.ok (), true, []) := by
  simp [initBarretenberg]

/-! ### C1: the derivation message -/

/-- C1 counterexample: at address `0xABCunique`, the message actually handed
to `personal_sign` differs from the spec's claimed bytes (`Version: v1`,
address lower-cased). -/
theorem c1_message_counterexample :
    (deriveAztecKeysM testEnv "0xABCunique").2 ≠
      [Effect.signatureRequest (claimedDerivationMessage "0xABCunique")] := by
  decide

/-- C1 (amended): for every EVM address passed to derivation, the plaintext
message submitted to the signer is exactly the fixed template with version
tag `vizard-v1` and the address embedded verbatim (not lower-cased). -/
theorem c1_derivation_message (env : Env) (evmAddress : String)
    (h : env.ethereumPresent = true) :
    (deriveAztecKeysM env evmAddress).2 =
      [Effect.signatureRequest
        ("Vizard Aztec Wallet\n\nSign this message to derive your Aztec private keys.\nThis signature will NOT be sent to any server.\n\nVersion: vizard-v1\nAddress: "
          ++ evmAddress)] := by
  rw [← createDerivationMessage_eq]
  simp only [deriveAztecKeysM, h, if_true]
  cases env.signResult (createDerivationMessage evmAddress) evmAddress <;> rfl

/-- C1 witness. -/
theorem c1_derivation_message_witness :
    testEnv.ethereumPresent = true ∧
      (deriveAztecKeysM testEnv "0xABCunique").2 =
        [Effect.signatureRequest
          ("Vizard Aztec Wallet\n\nSign this message to derive your Aztec private keys.\nThis signature will NOT be sent to any server.\n\nVersion: vizard-v1\nAddress: "
            ++ "0xABCunique")] :=
  ⟨rfl, c1_derivation_message testEnv "0xABCunique" rfl⟩

/-! ### C2: domain-separated key derivation -/

/-- C2: for every signature, the derived key set is exactly the three
domain-separated hashes (the first two through `Fr.fromBuffer`, the third
raw), the three domain tags are pairwise distinct and non-empty, and hence
the three hash inputs are pairwise distinct. -/
theorem c2_domain_separation (keccak256 : List Nat → List Nat)
    (frFromBuffer : List Nat → Nat) (evmAddress : String) (sig : List Nat) :
    deriveKeysFromSignature keccak256 frFromBuffer evmAddress sig =
      { secretKey := frFromBuffer (keccak256 (sig ++ toBytesAscii "vizard:secret"))
        salt := frFromBuffer (keccak256 (sig ++ toBytesAscii "vizard:salt"))
        signingPrivateKey := keccak256 (sig ++ toBytesAscii "vizard:signing")
        evmAddress := evmAddress
        signature := sig }
    ∧ (toBytesAscii "vizard:secret" ≠ toBytesAscii "vizard:salt"
        ∧ toBytesAscii "vizard:secret" ≠ toBytesAscii "vizard:signing"
        ∧ toBytesAscii "vizard:salt" ≠ toBytesAscii "vizard:signing")
    ∧ (toBytesAscii "vizard:secret" ≠ []
        ∧ toBytesAscii "vizard:salt" ≠ []
        ∧ toBytesAscii "vizard:signing" ≠ [])
    ∧ (sig ++ toBytesAscii "vizard:secret" ≠ sig ++ toBytesAscii "vizard:salt"
        ∧ sig ++ toBytesAscii "vizard:secret" ≠ sig ++ toBytesAscii "vizard:signing"
        ∧ sig ++ toBytesAscii "vizard:salt" ≠ sig ++ toBytesAscii "vizard:signing") := by
  refine ⟨rfl, ⟨by decide, by decide, by decide⟩, ⟨by decide, by decide, by decide⟩,
    ?_, ?_, ?_⟩ <;>
    · intro h
      have h2 := List.append_cancel_left h
      revert h2
      decide

/-! ### C3: idempotent re-connect -/

/-- C3: when an account handle is cached, `connect` returns it unchanged with
no state mutation and no external effect of any kind (no signature request,
key derivation, node connection, or deployment). -/
theorem c3_idempotent_connect (config : VizardWalletConfig) (env : Env)
    (s : WalletState) (w : Nat) (h : s.accountWallet = some w) :
    connect config env s = (.ok w, s, []) := by
  simp [connect, h]

/-- C3 witness. -/
theorem c3_idempotent_connect_witness :
    cachedWalletState.accountWallet = some 5 ∧
      connect testConfig testEnv cachedWalletState = (.ok 5, cachedWalletState, []) :=
  ⟨rfl, c3_idempotent_connect testConfig testEnv cachedWalletState 5 rfl⟩

/-! ### C5: proving-backend initialization policy -/

/-- C5 counterexample: with the default configuration (no backend forced), a
failed first attempt is not retried at all — one attempt, error propagated —
refuting the claim that every configuration gets exactly one retry. -/
theorem c5_no_retry_counterexample :
    initBarretenberg testConfig bbFailEnv false =
      (.error "bb worker failed", false, [.bbInitAttempt none none]) := by
  rfl

/-- C5 (amended): once initialized, later calls do nothing; otherwise one
attempt is made with the configured options; on failure a single retry with
the plain Wasm backend (threads defaulting to 1) happens only when the
configured backend was the worker one, and with any other configuration the
failure propagates with no retry. -/
theorem c5_bb_fallback_policy (config : VizardWalletConfig) (env : Env)
    (flag : Bool) :
    (flag = true → initBarretenberg config env flag = (.ok (), true, [])) ∧
    (flag = false → env.bbAttempt1Ok = true →
      initBarretenberg config env flag =
        (.ok (), true, [.bbInitAttempt config.bbBackend config.bbThreads])) ∧
    (flag = false → env.bbAttempt1Ok = false →
      config.bbBackend = some .wasmWorker →
      initBarretenberg config env flag =
        ((if env.bbAttempt2Ok then .ok () else .error env.bbAttempt2Err),
         env.bbAttempt2Ok,
         [.bbInitAttempt (some .wasmWorker) config.bbThreads,
          .bbInitAttempt (some .wasm) (some (config.bbThreads.getD 1))])) ∧
    (flag = false → env.bbAttempt1Ok = false →
      config.bbBackend ≠ some .wasmWorker →
      initBarretenberg config env flag =
        (.error env.bbAttempt1Err, false,
         [.bbInitAttempt config.bbBackend config.bbThreads])) := by
  refine ⟨?_, ?_, ?_, ?_⟩
  · intro h; subst h; exact initBarretenberg_of_initialized config env
  · intro h h1; subst h; simp [initBarretenberg, h1]
  · intro h h1 h2; subst h
    cases h3 : env.bbAttempt2Ok <;> simp [initBarretenberg, h1, h2, h3]
  · intro h h1 h2; subst h; simp [initBarretenberg, h1, h2]

/-- C5 witness: worker backend configured, first attempt fails, retry with
the Wasm backend succeeds. -/
theorem c5_bb_fallback_policy_witness :
    initBarretenberg workerConfig bbFailEnv false =
      ((if bbFailEnv.bbAttempt2Ok then .ok () else .error bbFailEnv.bbAttempt2Err),
       bbFailEnv.bbAttempt2Ok,
       [.bbInitAttempt (some .wasmWorker) workerConfig.bbThreads,
        .bbInitAttempt (some .wasm) (some (workerConfig.bbThreads.getD 1))]) :=
  (c5_bb_fallback_policy workerConfig bbFailEnv false).2.2.1 rfl rfl rfl

/-! ### C7: failures set a terminal disconnected state and re-throw -/

/-- C7: with no cached handle, `connect` fails exactly when its body fails,
with the same error; every such failure leaves the connection state at
`disconnected` carrying the error message.  No connection-level failure is
swallowed. -/
theorem c7_failure_propagation (config : VizardWalletConfig) (env : Env)
    (s : WalletState) (e : String) (hw : s.accountWallet = none) :
    ((connectBody config env s).1 = .error e ↔
        (connect config env s).1 = .error e) ∧
    ((connectBody config env s).1 = .error e →
        (connect config env s).2.1.connectionState = ⟨.disconnected, e⟩) := by
  rcases hb : connectBody config env s with ⟨res, s1, fx⟩
  cases res <;> simp_all [connect]

/-- C7 witness: the no-unlocked-accounts failure ends `disconnected` with the
thrown message. -/
theorem c7_failure_propagation_witness :
    initialWalletState.accountWallet = none ∧
      (connectBody testConfig noAccountsEnv initialWalletState).1 =
        .error "No accounts available. Please unlock MetaMask." ∧
      (connect testConfig noAccountsEnv initialWalletState).2.1.connectionState =
        ⟨.disconnected, "No accounts available. Please unlock MetaMask."⟩ :=
  ⟨rfl, rfl,
    (c7_failure_propagation testConfig noAccountsEnv initialWalletState
      "No accounts available. Please unlock MetaMask." rfl).2 rfl⟩

/-! ### C10: disconnect frame -/

/-- C10: `disconnect` nulls the node, account wallet, TestWallet, derived
keys, EVM address and Aztec address and publishes `disconnected`, while
leaving the resolved fee payment method and the bb.js flag unchanged; with
the flag still set, a later initialization call is a no-op. -/
theorem c10_disconnect_frame (s : WalletState) (config : VizardWalletConfig)
    (env : Env) :
    (disconnect s).node = none ∧
    (disconnect s).accountWallet = none ∧
    (disconnect s).testWalletInstance = none ∧
    (disconnect s).derivedKeys = none ∧
    (disconnect s).evmAddress = none ∧
    (disconnect s).aztecAddress = none ∧
    (disconnect s).connectionState = ⟨.disconnected, "Disconnected"⟩ ∧
    getFeePaymentMethod (disconnect s) = getFeePaymentMethod s ∧
    (disconnect s).bbInitialized = s.bbInitialized ∧
    (s.bbInitialized = true →
      initBarretenberg config env (disconnect s).bbInitialized = (.ok (), true, [])) := by
  refine ⟨rfl, rfl, rfl, rfl, rfl, rfl, rfl, rfl, rfl, ?_⟩
  intro h
  show initBarretenberg config env s.bbInitialized = _
  rw [h]
  exact initBarretenberg_of_initialized config env

/-- C10 witness. -/
theorem c10_disconnect_frame_witness :
    getFeePaymentMethod (disconnect sessionWalletState) =
        getFeePaymentMethod sessionWalletState ∧
      (disconnect sessionWalletState).bbInitialized = true ∧
      initBarretenberg testConfig testEnv (disconnect sessionWalletState).bbInitialized =
        (.ok (), true, []) :=
  ⟨(c10_disconnect_frame sessionWalletState testConfig testEnv).2.2.2.2.2.2.2.1,
   rfl,
   (c10_disconnect_frame sessionWalletState testConfig testEnv).2.2.2.2.2.2.2.2.2 rfl⟩

/-! ### C6: transaction queue serialization -/

/-- The schedule has one entry per queued operation. -/
theorem scheduleOps_length (q : PromiseState) (ops : List TxOp) :
    (scheduleOps q ops).length = ops.length := by
  induction ops generalizing q with
  | nil => rfl
  | cons op rest ih => simp [scheduleOps, ih]

/-- Closed form of the schedule: operation `i` starts after the first `i`
durations have elapsed and settles after `i + 1`; its outcome is its own. -/
theorem scheduleOps_get (q : PromiseState) (ops : List TxOp) (i : Nat)
    (h : i < (scheduleOps q ops).length) (h2 : i < ops.length) :
    (scheduleOps q ops).get ⟨i, h⟩ =
      ⟨q.settleTime + sumDurations (ops.take i),
       q.settleTime + sumDurations (ops.take (i + 1)),
       (ops.get ⟨i, h2⟩).succeeds⟩ := by
  induction ops generalizing q i with
  | nil => cases h2
  | cons op rest ih =>
    cases i with
    | zero => simp [scheduleOps, enqueueTx, sumDurations]
    | succ n =>
      have hn : n < (scheduleOps (enqueueTx q op).2 rest).length := by
        have := scheduleOps_length (enqueueTx q op).2 rest
        simp [scheduleOps] at h
        omega
      have hn2 : n < rest.length := by simpa using h2
      have step := ih (enqueueTx q op).2 n hn hn2
      simp only [scheduleOps, List.get_cons_succ]
      rw [step]
      simp [enqueueTx, sumDurations, Nat.add_assoc]

/-- Sums of longer prefixes dominate. -/
theorem sumDurations_take_mono (l : List TxOp) (a b : Nat) (hab : a ≤ b) :
    sumDurations (l.take a) ≤ sumDurations (l.take b) := by
  have h1 : l.take a = (l.take b).take a := by
    rw [List.take_take, Nat.min_eq_left hab]
  rw [h1]
  conv_rhs => rw [← List.take_append_drop a (l.take b)]
  simp only [sumDurations, List.map_append, List.sum_append]
  exact Nat.le_add_right _ _

/-- C6: operations funneled through `enqueueTx` are serialized: of any two,
the later-queued one starts only at or after the earlier one has settled
(successfully or not), and each operation starts exactly when its
predecessor settles — one FIFO queue, at most one submission in flight. -/
theorem c6_queue_serialization (q : PromiseState) (ops : List TxOp)
    (i j : Nat) (hij : i < j) (hj : j < (scheduleOps q ops).length) :
    ((scheduleOps q ops).get ⟨i, Nat.lt_trans hij hj⟩).settleTime ≤
      ((scheduleOps q ops).get ⟨j, hj⟩).startTime ∧
    (j = i + 1 →
      ((scheduleOps q ops).get ⟨j, hj⟩).startTime =
        ((scheduleOps q ops).get ⟨i, Nat.lt_trans hij hj⟩).settleTime) := by
  have hlen := scheduleOps_length q ops
  have hj2 : j < ops.length := by omega
  have hi2 : i < ops.length := by omega
  rw [scheduleOps_get q ops i (Nat.lt_trans hij hj) hi2,
    scheduleOps_get q ops j hj hj2]
  constructor
  · exact Nat.add_le_add_left (sumDurations_take_mono ops (i + 1) j hij) _
  · intro hji; subst hji; rfl

/-- C6 witness: two queued operations, the first failing; the second starts
exactly when the first settles. -/
theorem c6_queue_serialization_witness :
    ((scheduleOps txQueueInit [⟨3, false⟩, ⟨2, true⟩]).get
        ⟨0, Nat.lt_trans Nat.zero_lt_one (by decide)⟩).settleTime ≤
      ((scheduleOps txQueueInit [⟨3, false⟩, ⟨2, true⟩]).get ⟨1, by decide⟩).startTime ∧
    (1 = 0 + 1 →
      ((scheduleOps txQueueInit [⟨3, false⟩, ⟨2, true⟩]).get ⟨1, by decide⟩).startTime =
        ((scheduleOps txQueueInit [⟨3, false⟩, ⟨2, true⟩]).get
          ⟨0, Nat.lt_trans Nat.zero_lt_one (by decide)⟩).settleTime) :=
  c6_queue_serialization txQueueInit [⟨3, false⟩, ⟨2, true⟩] 0 1
    Nat.zero_lt_one (by decide)

/-! ### C9: idempotent contract registration -/

/-- C9: on a connected facade with the address not yet cached, the first
`contractAt(address, register := true)` fetches the instance and registers it
exactly once, caching the key; the second call performs no fetch and no
registration and returns a handle bound to the same address; and when no
instance exists on-network, the call throws a contract-not-found error
leaving the cache (and all state) unchanged. -/
theorem c9_contract_registration (env : Env) (s : VizardSdkState)
    (address : String) (w n inst : Nat)
    (hw : s.walletState.accountWallet = some w)
    (hn : s.walletState.node = some n)
    (hnc : s.registeredContracts.contains (addressKeyOf address) = false) :
    (env.getContractAt (addressKeyOf address) = .ok (some inst) →
      contractAt env s address true =
        (.ok (addressKeyOf address),
         { s with registeredContracts :=
             s.registeredContracts ++ [addressKeyOf address] },
         [.nodeGetContract (addressKeyOf address),
          .walletRegisterContract (addressKeyOf address),
          .syncPrivateState [addressKeyOf address]]) ∧
      contractAt env
          { s with registeredContracts :=
              s.registeredContracts ++ [addressKeyOf address] }
          address true =
        (.ok (addressKeyOf address),
         { s with registeredContracts :=
             s.registeredContracts ++ [addressKeyOf address] },
         [])) ∧
    (env.getContractAt (addressKeyOf address) = .ok none →
      contractAt env s address true =
        (.error ("Contract not found at " ++ addressKeyOf address ++
                 ". Make sure it is deployed on this network."),
         s, [.nodeGetContract (addressKeyOf address)])) := by
  have hnc2 : addressKeyOf address ∉ s.registeredContracts := by simpa using hnc
  constructor
  · intro hfound
    constructor
    · simp [contractAt, hw, hn, hnc2, hfound]
    · simp [contractAt, hw, hn]
  · intro hmissing
    simp [contractAt, hw, hn, hnc2, hmissing]

/-- C9 witness. -/
theorem c9_contract_registration_witness :
    connectedSdkState.walletState.accountWallet = some 5 ∧
    connectedSdkState.walletState.node = some 7 ∧
    connectedSdkState.registeredContracts.contains (addressKeyOf "0xTOKEN") = false ∧
    testEnv.getContractAt (addressKeyOf "0xTOKEN") = .ok (some 3) ∧
    (contractAt testEnv connectedSdkState "0xTOKEN" true =
      (.ok (addressKeyOf "0xTOKEN"),
       { connectedSdkState with registeredContracts :=
           connectedSdkState.registeredContracts ++ [addressKeyOf "0xTOKEN"] },
       [.nodeGetContract (addressKeyOf "0xTOKEN"),
        .walletRegisterContract (addressKeyOf "0xTOKEN"),
        .syncPrivateState [addressKeyOf "0xTOKEN"]]) ∧
     contractAt testEnv
        { connectedSdkState with registeredContracts :=
            connectedSdkState.registeredContracts ++ [addressKeyOf "0xTOKEN"] }
        "0xTOKEN" true =
      (.ok (addressKeyOf "0xTOKEN"),
       { connectedSdkState with registeredContracts :=
           connectedSdkState.registeredContracts ++ [addressKeyOf "0xTOKEN"] },
       [])) :=
  ⟨rfl, rfl, rfl, rfl,
   (c9_contract_registration testEnv connectedSdkState "0xTOKEN" 5 7 3
     rfl rfl rfl).1 rfl⟩

/-! ### C4: deploy-or-reuse -/

/-- C4: during account setup, if the network reports the deterministic
account address as already initialized, no deployment is submitted; if not,
exactly one deployment is submitted, from the zero address with the
previously resolved fee payment method, followed by a confirmation wait
bounded by 300000 ms whose timeout fails the connect attempt. -/
theorem c4_deploy_or_reuse (config : VizardWalletConfig) (env : Env)
    (s : WalletState) (addr : String) (rest : List String) (sig : List Nat)
    (node tw pm : Nat) (m : ContractMetadata)
    (hw : s.accountWallet = none)
    (hbb : s.bbInitialized = true)
    (hfee : s.feePaymentMethod = some pm)
    (hprov : config.hasFeePaymentMethodProvider = true)
    (heth : env.ethereumPresent = true)
    (hacc : env.accounts = addr :: rest)
    (hsig : env.signResult (createDerivationMessage addr) addr = .ok sig)
    (hnode : env.nodeReady config.pxeUrl = .ok node)
    (hl1 : env.l1ContractsResult = .ok ())
    (htw : env.testWalletCreate = .ok tw)
    (hmeta : env.contractMetadata (env.accountAddressOf
        (deriveKeysFromSignature env.keccak256 env.frFromBuffer addr sig)) = .ok m) :
    (m.isContractInitialized = true →
      countDeploys (connect config env s).2.2 = 0 ∧
      (connect config env s).1 = .ok tw) ∧
    (m.isContractInitialized = false →
      countDeploys (connect config env s).2.2 = 1 ∧
      Effect.deploySubmit AztecAddressZero (some pm) ∈ (connect config env s).2.2 ∧
      (env.deploySendResult = .ok () →
        Effect.deployWait 300000 ∈ (connect config env s).2.2 ∧
        (env.deployWaitResult = .ok () → (connect config env s).1 = .ok tw) ∧
        (∀ err, env.deployWaitResult = .error err →
          (connect config env s).1 = .error err))) := by
  have hkeys : deriveAztecKeysM env addr =
      (.ok (deriveKeysFromSignature env.keccak256 env.frFromBuffer addr sig),
       [.signatureRequest (createDerivationMessage addr)]) := by
    simp [deriveAztecKeysM, heth, hsig]
  have hpxe : connectToPXE env config.pxeUrl = (.ok node, [.pxeConnect config.pxeUrl]) := by
    simp [connectToPXE, hnode]
  constructor
  · intro hinit
    simp [connect, connectBody, hw, heth, hacc, hkeys, hpxe, setupAccount, hbb,
      initBarretenberg_of_initialized, hl1, htw, hprov, resolveFeePaymentMethod,
      hfee, hmeta, hinit, setupTail, countDeploys, Effect.isDeploySubmit]
  · intro hinit
    rcases hsend : env.deploySendResult with e | u
    · simp [connect, connectBody, hw, heth, hacc, hkeys, hpxe, setupAccount, hbb,
        initBarretenberg_of_initialized, hl1, htw, hprov, resolveFeePaymentMethod,
        hfee, hmeta, hinit, hsend, setupTail, countDeploys, Effect.isDeploySubmit]
    · rcases hwait : env.deployWaitResult with e | u2
      · simp [connect, connectBody, hw, heth, hacc, hkeys, hpxe, setupAccount, hbb,
          initBarretenberg_of_initialized, hl1, htw, hprov, resolveFeePaymentMethod,
          hfee, hmeta, hinit, hsend, hwait, setupTail, countDeploys, Effect.isDeploySubmit]
      · simp [connect, connectBody, hw, heth, hacc, hkeys, hpxe, setupAccount, hbb,
          initBarretenberg_of_initialized, hl1, htw, hprov, resolveFeePaymentMethod,
          hfee, hmeta, hinit, hsend, hwait, setupTail, countDeploys, Effect.isDeploySubmit]

/-- C4 witness: account not initialized, deployment submitted and confirmed. -/
theorem c4_deploy_or_reuse_witness :
    countDeploys (connect testConfig freshAccountEnv warmWalletState).2.2 = 1 ∧
    Effect.deploySubmit AztecAddressZero (some 9) ∈
      (connect testConfig freshAccountEnv warmWalletState).2.2 ∧
    Effect.deployWait 300000 ∈ (connect testConfig freshAccountEnv warmWalletState).2.2 ∧
    (connect testConfig freshAccountEnv warmWalletState).1 = .ok 5 := by
  have h := (c4_deploy_or_reuse testConfig freshAccountEnv warmWalletState
    "0xabc" [] [1, 2, 3] 7 5 9 ⟨false, false, false⟩
    rfl rfl rfl rfl rfl rfl rfl rfl rfl rfl rfl).2 rfl
  have h2 := h.2.2 rfl
  exact ⟨h.1, h.2.1, h2.1, h2.2.1 rfl⟩

/-! ### C8: sender-registration failure is non-fatal -/

/-- C8: when registering the account's own address as a sender fails during
setup, the failure is swallowed: the attempt appears in the trace as failed,
yet `connect` resolves with the account handle and the session reaches the
`connected` state. -/
theorem c8_sender_registration_nonfatal (config : VizardWalletConfig) (env : Env)
    (s : WalletState) (addr : String) (rest : List String) (sig : List Nat)
    (node tw pm : Nat) (m : ContractMetadata)
    (hw : s.accountWallet = none)
    (hbb : s.bbInitialized = true)
    (hfee : s.feePaymentMethod = some pm)
    (hprov : config.hasFeePaymentMethodProvider = true)
    (heth : env.ethereumPresent = true)
    (hacc : env.accounts = addr :: rest)
    (hsig : env.signResult (createDerivationMessage addr) addr = .ok sig)
    (hnode : env.nodeReady config.pxeUrl = .ok node)
    (hl1 : env.l1ContractsResult = .ok ())
    (htw : env.testWalletCreate = .ok tw)
    (hmeta : env.contractMetadata (env.accountAddressOf
        (deriveKeysFromSignature env.keccak256 env.frFromBuffer addr sig)) = .ok m)
    (hinit : m.isContractInitialized = true)
    (hreg : env.registerSenderOk = false) :
    (connect config env s).1 = .ok tw ∧
    (connect config env s).2.1.connectionState.status = .connected ∧
    Effect.registerSender
        (env.accountAddressOf
          (deriveKeysFromSignature env.keccak256 env.frFromBuffer addr sig)) false ∈
      (connect config env s).2.2 := by
  have hkeys : deriveAztecKeysM env addr =
      (.ok (deriveKeysFromSignature env.keccak256 env.frFromBuffer addr sig),
       [.signatureRequest (createDerivationMessage addr)]) := by
    simp [deriveAztecKeysM, heth, hsig]
  have hpxe : connectToPXE env config.pxeUrl = (.ok node, [.pxeConnect config.pxeUrl]) := by
    simp [connectToPXE, hnode]
  simp [connect, connectBody, hw, heth, hacc, hkeys, hpxe, setupAccount, hbb,
    initBarretenberg_of_initialized, hl1, htw, hprov, resolveFeePaymentMethod,
    hfee, hmeta, hinit, hreg, setupTail, connectedMessage]

/-- C8 witness. -/
theorem c8_sender_registration_nonfatal_witness :
    (connect testConfig senderFailEnv warmWalletState).1 = .ok 5 ∧
    (connect testConfig senderFailEnv warmWalletState).2.1.connectionState.status =
      .connected ∧
    Effect.registerSender "0xaztecaddr" false ∈
      (connect testConfig senderFailEnv warmWalletState).2.2 :=
  c8_sender_registration_nonfatal testConfig senderFailEnv warmWalletState
    "0xabc" [] [1, 2, 3] 7 5 9 ⟨true, true, true⟩
    rfl rfl rfl rfl rfl rfl rfl rfl rfl rfl rfl rfl rfl

end Vizard
